import Mathlib

/-
  Verification development for the BlockchainDocVerifier repository.

  The definitions below are a shallow embedding of the server-side
  verification pipeline:
    - src/server/lib/documentAi.ts   (validateDocument, extractDocumentId,
                                      processAndVerifyDocument, expiry check)
    - src/server/lib/ipfs.ts         (uploadToIpfs)
    - src/server/lib/blockchain.ts   (storeOnBlockchain)
    - src/unnamed/part_014           (POST /api/documents/verify background
                                      pipeline, POST /api/documents/:id/retry)
    - src/server/storage.ts          (MemStorage.updateDocumentStatus,
                                      MemStorage.createDocument,
                                      MemStorage.getDocumentStats)
    - src/server/routes.ts           (PATCH /api/documents/:id/status)

  JavaScript regular expressions are embedded as deterministic scanners over
  character lists.  For each concrete pattern of documentAi.ts the greedy
  quantifiers never need backtracking (every optional or starred piece is
  followed by a piece that can never match the characters the quantifier
  consumes), so the scanners below compute exactly the JS leftmost match.
  Math.random-driven generators are abstracted as explicit parameters, and
  the current clock (new Date) as an explicit JsDate argument.
-/

namespace BlockchainDocVerifier

/-! ## Character classes (JS regex semantics, ASCII inputs) -/

/-- JS word character class backslash-w: ASCII letters, digits, underscore. -/
def isWordChar (c : Char) : Bool :=
  c.isAlpha || c.isDigit || c = '_'

/-- JS whitespace class backslash-s restricted to the ASCII whitespace
characters that can occur in the inputs of this repository. -/
def isJsSpace (c : Char) : Bool :=
  c = ' ' || c = '\t' || c = '\n' || c = '\r'

/-- A word boundary holds before the current position when the previous
character (if any) is not a word character; all patterns of
extractDocumentId begin with a word character. -/
def boundaryBefore (prev : Option Char) : Bool :=
  match prev with
  | none => true
  | some c => !isWordChar c

/-- A word boundary holds after a match when the next character (if any) is
not a word character; all patterns of extractDocumentId end with a word
character. -/
def boundaryAfter (rest : List Char) : Bool :=
  match rest with
  | [] => true
  | c :: _ => !isWordChar c

/-- Consume exactly n ASCII digits, returning them and the rest. -/
def takeDigits : Nat → List Char → Option (List Char × List Char)
  | 0, l => some ([], l)
  | _ + 1, [] => none
  | n + 1, c :: cs =>
    if c.isDigit then
      (takeDigits n cs).map (fun p => (c :: p.1, p.2))
    else none

/-- Consume exactly n ASCII uppercase letters, returning them and the rest. -/
def takeUppers : Nat → List Char → Option (List Char × List Char)
  | 0, l => some ([], l)
  | _ + 1, [] => none
  | n + 1, c :: cs =>
    if c.isUpper then
      (takeUppers n cs).map (fun p => (c :: p.1, p.2))
    else none

/-- Number of leading ASCII digits. -/
def countLeadingDigits : List Char → Nat
  | [] => 0
  | c :: cs => if c.isDigit then countLeadingDigits cs + 1 else 0

/-- Greedy match of the optional whitespace quantifier backslash-s-question:
consume one whitespace character when present. -/
def optSpace (l : List Char) : List Char × List Char :=
  match l with
  | c :: cs => if isJsSpace c then ([c], cs) else ([], c :: cs)
  | [] => ([], [])

/-- Greedy run of ASCII letters (the case-insensitive [a-z]* piece). -/
def takeLetters : List Char → List Char × List Char
  | [] => ([], [])
  | c :: cs =>
    if c.isAlpha then
      let (r, rest) := takeLetters cs
      (c :: r, rest)
    else ([], c :: cs)

/-- Greedy run of whitespace characters. -/
def takeSpaces : List Char → List Char × List Char
  | [] => ([], [])
  | c :: cs =>
    if isJsSpace c then
      let (r, rest) := takeSpaces cs
      (c :: r, rest)
    else ([], c :: cs)

/-! ## Document types (shared/schema.ts, documentTypes) -/

/-- Closed enumeration of document types (shared/schema.ts). -/
inductive DocumentType
  | aadhar
  | pan
  | driving_license
  | passport
  | voter_id
deriving DecidableEq, Repr

/-! ## Identifier patterns (documentAi.ts, extractDocumentId lines 216-231)

Each matcher tries the corresponding JS pattern at one position, given the
previous character (for the leading word-boundary test); it returns the
matched characters.  The trailing word-boundary is tested on the leftover
input. -/

/-- Aadhar pattern: four digits, optional whitespace, four digits, optional
whitespace, four digits, between word boundaries. -/
def matchAadharAt (prev : Option Char) (l : List Char) : Option (List Char) :=
  if boundaryBefore prev then
    match takeDigits 4 l with
    | none => none
    | some (d1, r1) =>
      let (s1, r1b) := optSpace r1
      match takeDigits 4 r1b with
      | none => none
      | some (d2, r2) =>
        let (s2, r2b) := optSpace r2
        match takeDigits 4 r2b with
        | none => none
        | some (d3, r3) =>
          if boundaryAfter r3 then some (d1 ++ s1 ++ d2 ++ s2 ++ d3) else none
  else none

/-- PAN pattern: five uppercase letters, four digits, one uppercase letter,
between word boundaries. -/
def matchPanAt (prev : Option Char) (l : List Char) : Option (List Char) :=
  if boundaryBefore prev then
    match takeUppers 5 l with
    | none => none
    | some (u1, r1) =>
      match takeDigits 4 r1 with
      | none => none
      | some (d1, r2) =>
        match takeUppers 1 r2 with
        | none => none
        | some (u2, r3) =>
          if boundaryAfter r3 then some (u1 ++ d1 ++ u2) else none
  else none

/-- Driving-license pattern: the literal DL or dl, an optional hyphen or
space, then ten to sixteen digits, between word boundaries.  The greedy
ten-to-sixteen digit quantifier followed by a word boundary succeeds exactly
when the full digit run has length between ten and sixteen and is followed
by a non-word character. -/
def matchDlAt (prev : Option Char) (l : List Char) : Option (List Char) :=
  if boundaryBefore prev then
    match l with
    | 'D' :: 'L' :: r0 => matchDlTail ['D', 'L'] r0
    | 'd' :: 'l' :: r0 => matchDlTail ['d', 'l'] r0
    | _ => none
  else none
where
  /-- Shared tail after the DL or dl literal. -/
  matchDlTail (hd : List Char) (r0 : List Char) : Option (List Char) :=
    let (sep, r1) :=
      match r0 with
      | c :: cs => if c = '-' || c = ' ' then ([c], cs) else ([], c :: cs)
      | [] => ([], [])
    let n := countLeadingDigits r1
    if 10 ≤ n && n ≤ 16 then
      let (ds, r2) := r1.splitAt n
      if boundaryAfter r2 then some (hd ++ sep ++ ds) else none
    else none

/-- Passport pattern: one uppercase letter then seven digits, between word
boundaries. -/
def matchPassportAt (prev : Option Char) (l : List Char) : Option (List Char) :=
  if boundaryBefore prev then
    match takeUppers 1 l with
    | none => none
    | some (u1, r1) =>
      match takeDigits 7 r1 with
      | none => none
      | some (d1, r2) =>
        if boundaryAfter r2 then some (u1 ++ d1) else none
  else none

/-- Voter-id pattern: three uppercase letters then seven digits, between
word boundaries. -/
def matchVoterAt (prev : Option Char) (l : List Char) : Option (List Char) :=
  if boundaryBefore prev then
    match takeUppers 3 l with
    | none => none
    | some (u1, r1) =>
      match takeDigits 7 r1 with
      | none => none
      | some (d1, r2) =>
        if boundaryAfter r2 then some (u1 ++ d1) else none
  else none

/-- Leftmost-match scan: try the matcher at every position from the left,
carrying the previous character for the word-boundary test. -/
def findFirstMatch (tryAt : Option Char → List Char → Option (List Char)) :
    Option Char → List Char → Option (List Char)
  | _, [] => none
  | prev, c :: cs =>
    match tryAt prev (c :: cs) with
    | some m => some m
    | none => findFirstMatch tryAt (some c) cs

/-- Embedding of extractDocumentId (documentAi.ts lines 216-231): first match
of the per-type pattern in the OCR text, or none. -/
def extractDocumentId (ocrText : String) (documentType : DocumentType) :
    Option String :=
  let found :=
    match documentType with
    | .aadhar => findFirstMatch matchAadharAt none ocrText.data
    | .pan => findFirstMatch matchPanAt none ocrText.data
    | .driving_license => findFirstMatch matchDlAt none ocrText.data
    | .passport => findFirstMatch matchPassportAt none ocrText.data
    | .voter_id => findFirstMatch matchVoterAt none ocrText.data
  found.map fun cs => String.mk cs

/-! ## Expiry marker (documentAi.ts, validateDocument lines 137-153)

The source matches, case-insensitively,
  (expir[a-z]* | valid whitespace+ (till|until|thru)) colon whitespace*
  capturing digits(1-2) sep digits(1-2) sep digits(2-4), sep in slash,
  hyphen or dot, then splits the capture and compares
  Date(year, month-1, day) with the current date. -/

/-- Consume a lowercase pattern case-insensitively, returning the rest. -/
def matchCi : List Char → List Char → Option (List Char)
  | [], l => some l
  | _ :: _, [] => none
  | p :: ps, c :: cs => if c.toLower = p then matchCi ps cs else none

/-- Match the expiry keyword alternation at one position, returning the rest
of the input after the keyword. -/
def matchExpiryKeyword (l : List Char) : Option (List Char) :=
  match matchCi ['e', 'x', 'p', 'i', 'r'] l with
  | some r1 =>
    let (_, r2) := takeLetters r1
    some r2
  | none =>
    match matchCi ['v', 'a', 'l', 'i', 'd'] l with
    | none => none
    | some r1 =>
      let (sp, r2) := takeSpaces r1
      if sp.isEmpty then none
      else
        match matchCi ['t', 'i', 'l', 'l'] r2 with
        | some r3 => some r3
        | none =>
          match matchCi ['u', 'n', 't', 'i', 'l'] r2 with
          | some r3 => some r3
          | none => matchCi ['t', 'h', 'r', 'u'] r2

/-- Date separator class: slash, hyphen or dot. -/
def isDateSep (c : Char) : Bool :=
  c = '/' || c = '-' || c = '.'

/-- Match the captured date at one position: one-to-two digits, separator,
one-to-two digits, separator, two-to-four digits (greedy), returning the
three digit groups. -/
def matchDateAt (l : List Char) : Option (List Char × List Char × List Char) :=
  let n1 := countLeadingDigits l
  if n1 = 0 || 2 < n1 then none
  else
    let (d1, r1) := l.splitAt n1
    match r1 with
    | c1 :: r2 =>
      if isDateSep c1 then
        let n2 := countLeadingDigits r2
        if n2 = 0 || 2 < n2 then none
        else
          let (d2, r3) := r2.splitAt n2
          match r3 with
          | c2 :: r4 =>
            if isDateSep c2 then
              let n3 := countLeadingDigits r4
              if n3 < 2 then none
              else some (d1, d2, (r4.splitAt (min n3 4)).1)
            else none
          | [] => none
      else none
    | [] => none

/-- Try the whole expiry pattern at one position. -/
def matchExpiryAt (l : List Char) : Option (List Char × List Char × List Char) :=
  match matchExpiryKeyword l with
  | none => none
  | some r1 =>
    match r1 with
    | ':' :: r2 =>
      let (_, r3) := takeSpaces r2
      matchDateAt r3
    | _ => none

/-- Leftmost match of the expiry pattern over the whole text. -/
def findExpiry : List Char → Option (List Char × List Char × List Char)
  | [] => none
  | c :: cs =>
    match matchExpiryAt (c :: cs) with
    | some m => some m
    | none => findExpiry cs

/-- Numeric value of a digit string (parseInt on the all-digit captures). -/
def digitsToNat (l : List Char) : Nat :=
  l.foldl (fun a c => a * 10 + (c.toNat - '0'.toNat)) 0

/-- A JS Date built from year, zero-indexed month and day-of-month.  The
current clock (new Date with no arguments) is modelled as such a triple as
well. -/
structure JsDate where
  year : Int
  month : Int
  day : Int
deriving DecidableEq, Repr

/-- Timestamp order of two JS dates whose fields are within calendar range
(month 0-11, day 1-31), which is lexicographic on year, month, day.  All
dates compared in this development are within range. -/
def JsDate.isBefore (a b : JsDate) : Bool :=
  a.year < b.year ||
    (a.year = b.year &&
      (a.month < b.month || (a.month = b.month && a.day < b.day)))

/-- Embedding of the expiry computation of validateDocument (documentAi.ts
lines 137-153): whether an expiry marker is present whose date, read as
day/month/year with two-digit years mapped to 20xx, is strictly before now.
In the source the result of this comparison is only logged (the comment on
line 149 reads: Document has expired, but allowing verification for
testing); no reason is appended. -/
def documentExpired (now : JsDate) (ocrText : String) : Bool :=
  match findExpiry ocrText.data with
  | none => false
  | some (dayPart, monPart, yearPart) =>
    let year0 := digitsToNat yearPart
    let year : Int := if year0 < 100 then (year0 : Int) + 2000 else (year0 : Int)
    let month : Int := (digitsToNat monPart : Int) - 1
    let day : Int := (digitsToNat dayPart : Int)
    JsDate.isBefore ⟨year, month, day⟩ now

/-! ## Validator (documentAi.ts, validateDocument lines 107-208) -/

/-- Result shape of validateDocument. -/
structure ValidationOutcome where
  isValid : Bool
  documentId : Option String
  reasons : List String
deriving DecidableEq, Repr

/-- The only string ever pushed onto reasons (documentAi.ts line 118). -/
def shortTextReason : String :=
  "Could not clearly read document text. Please ensure good lighting and clear image quality."

/-- Embedding of validateDocument (documentAi.ts lines 107-208).  The
Math.random-based generateDocumentId (lines 238-274) is abstracted as the
genId parameter; new Date() as the now parameter.  The per-type boilerplate
switch (lines 159-201) only logs and appends no reasons, and the expiry
check result is discarded (lines 137-153), exactly as in the source. -/
def validateDocument (genId : DocumentType → String) (now : JsDate)
    (ocrText : String) (documentType : DocumentType) : ValidationOutcome :=
  let reasons : List String := []
  if ocrText.length < 10 then
    { isValid := false, documentId := none,
      reasons := reasons ++ [shortTextReason] }
  else
    match extractDocumentId ocrText documentType with
    | none =>
      { isValid := true, documentId := some (genId documentType), reasons := [] }
    | some documentId =>
      let _expired := documentExpired now ocrText
      { isValid := reasons.isEmpty
        documentId := if reasons.isEmpty then some documentId else none
        reasons := reasons }

/-! ## processAndVerifyDocument (documentAi.ts lines 20-60)

The image-preprocessing plus OCR steps (processImage, performOcr) are
external effects; their combined outcome is passed in as an Except value:
ok with the extracted text, or error with the thrown message.  The
surrounding try/catch of the source turns any thrown error into an invalid
result whose errorDetails is the interpolated message. -/

/-- Result shape of processAndVerifyDocument (shared/schema.ts
VerificationResult). -/
structure VerificationResult where
  isValid : Bool
  documentId : Option String := none
  documentType : Option DocumentType := none
  errorDetails : Option String := none
deriving DecidableEq, Repr

/-- Embedding of processAndVerifyDocument (documentAi.ts lines 20-60). -/
def processAndVerifyDocument (genId : DocumentType → String) (now : JsDate)
    (extraction : Except String String) (documentType : DocumentType) :
    VerificationResult :=
  match extraction with
  | .error err =>
    { isValid := false,
      errorDetails := some ("Error processing document: " ++ err) }
  | .ok ocrText =>
    let validationResult := validateDocument genId now ocrText documentType
    if validationResult.isValid then
      { isValid := true, documentId := validationResult.documentId,
        documentType := some documentType }
    else
      { isValid := false,
        errorDetails := some (String.intercalate ", " validationResult.reasons) }

/-! ## Content store and ledger adapters (ipfs.ts, blockchain.ts)

The simulated network call is passed in as an Except value: ok with the
generated content id or transaction hash, or error with the transport
failure message; the adapters wrap a transport failure in their own thrown
message (ipfs.ts line 46, blockchain.ts line 59). -/

/-- Embedding of uploadToIpfs (ipfs.ts lines 14-48). -/
def uploadToIpfs (transport : Except String String) : Except String String :=
  match transport with
  | .ok cid => .ok cid
  | .error e => .error ("Failed to upload document to IPFS: " ++ e)

/-- Embedding of storeOnBlockchain (blockchain.ts lines 14-61). -/
def storeOnBlockchain (transport : Except String String) : Except String String :=
  match transport with
  | .ok txHash => .ok txHash
  | .error e => .error ("Failed to store document on blockchain: " ++ e)

/-! ## Document records and repository updates (shared/schema.ts documents
table, storage.ts MemStorage with updateDocument, part_014 handlers) -/

/-- A document row (shared/schema.ts documents table, first variant:
documentId, status, ipfsHash, blockchainTxId, errorDetails). -/
structure Doc where
  id : Nat
  userId : Option Nat
  documentType : DocumentType
  documentId : String
  status : String
  ipfsHash : Option String
  blockchainTxId : Option String
  errorDetails : Option String
deriving DecidableEq, Repr

/-- The pending record created by POST /api/documents/verify before the
background pipeline runs (part_014 lines 109-118). -/
def initialPendingDoc (id : Nat) (documentType : DocumentType) : Doc :=
  { id := id, userId := some 1, documentType := documentType,
    documentId := "pending-verification", status := "pending",
    ipfsHash := none, blockchainTxId := none, errorDetails := none }

/-- A partial update as passed to MemStorage.updateDocument: a field of the
outer Option is absent when the key is absent from the update object; for
nullable columns the inner Option carries an explicit null write. -/
structure DocUpdate where
  documentId : Option String := none
  status : Option String := none
  ipfsHash : Option (Option String) := none
  blockchainTxId : Option (Option String) := none
  errorDetails : Option (Option String) := none
deriving DecidableEq, Repr

/-- Embedding of MemStorage.updateDocument (storage.ts lines 391-398):
object spread, so every key present in the update overrides the stored
field. -/
def applyUpdate (d : Doc) (u : DocUpdate) : Doc :=
  { d with
    documentId := u.documentId.getD d.documentId
    status := u.status.getD d.status
    ipfsHash := u.ipfsHash.getD d.ipfsHash
    blockchainTxId := u.blockchainTxId.getD d.blockchainTxId
    errorDetails := u.errorDetails.getD d.errorDetails }

/-! ## POST /api/documents/verify background pipeline (part_014 lines
128-182) -/

/-- The single terminal update the background block of the verify handler
applies: on a valid result, store then anchor then the verified update with
both references (lines 135-155); on an invalid result the invalid update
(lines 156-162); on any thrown error the error update (lines 163-176). -/
def verifyBackgroundUpdate (vr : VerificationResult)
    (store anchor : Except String String) : DocUpdate :=
  if vr.isValid then
    match store with
    | .error e =>
      { status := some "error",
        errorDetails := some (some ("Processing error: " ++ e)) }
    | .ok ipfsHash =>
      match anchor with
      | .error e =>
        { status := some "error",
          errorDetails := some (some ("Processing error: " ++ e)) }
      | .ok blockchainTxId =>
        { documentId := some (vr.documentId.getD ""),
          status := some "verified",
          ipfsHash := some (some ipfsHash),
          blockchainTxId := some (some blockchainTxId) }
  else
    { status := some "invalid", errorDetails := some vr.errorDetails }

/-- End-to-end run of one submission through the verify endpoint: create the
pending record, run processAndVerifyDocument on the extraction outcome,
then apply the terminal update produced by the background block.  The
store and anchor adapters are driven by their transport outcomes. -/
def runVerifyEndpoint (genId : DocumentType → String) (now : JsDate)
    (documentType : DocumentType)
    (extraction storeTransport anchorTransport : Except String String) : Doc :=
  let doc0 := initialPendingDoc 1 documentType
  let vr := processAndVerifyDocument genId now extraction documentType
  applyUpdate doc0
    (verifyBackgroundUpdate vr (uploadToIpfs storeTransport)
      (storeOnBlockchain anchorTransport))

/-! ## POST /api/documents/:id/retry (part_014 lines 209-282) -/

/-- The retry handler accepts whenever the document exists; it performs no
in-flight or status check (part_014 lines 217-220). -/
def retryAccepted (existing : Option Doc) : Bool :=
  existing.isSome

/-- First update of the retry handler: reset to pending and clear
errorDetails (part_014 lines 223-226). -/
def retryPendingUpdate : DocUpdate :=
  { status := some "pending", errorDetails := some none }

/-- Second update of the retry handler background block (part_014 lines
235-278): the comment on line 239 reads Always succeed for testing
purposes; the handler synthesizes a random DOC- document id and a random
ipfs- content hash (abstracted as the mockDocId and mockIpfs parameters),
calls only storeOnBlockchain, and writes the verified update; if that call
throws, the error update. -/
def retryBackgroundUpdate (mockDocId mockIpfs : String)
    (anchorTransport : Except String String) : DocUpdate :=
  match storeOnBlockchain anchorTransport with
  | .ok blockchainTxId =>
    { status := some "verified", documentId := some mockDocId,
      ipfsHash := some (some mockIpfs),
      blockchainTxId := some (some blockchainTxId),
      errorDetails := some none }
  | .error e =>
    { status := some "error",
      errorDetails := some (some ("Retry processing error: " ++ e)) }

/-- The two sequential updates the retry handler applies. -/
def retryUpdates (mockDocId mockIpfs : String)
    (anchorTransport : Except String String) : List DocUpdate :=
  [retryPendingUpdate, retryBackgroundUpdate mockDocId mockIpfs anchorTransport]

/-- Full effect of an accepted retry on the stored document. -/
def runRetry (d : Doc) (mockDocId mockIpfs : String)
    (anchorTransport : Except String String) : Doc :=
  (retryUpdates mockDocId mockIpfs anchorTransport).foldl applyUpdate d

/-! ## Interleavings of two in-flight attempts (part_014: the verify
background block and the retry background block run detached, with no
per-document lock) -/

/-- zs is an interleaving of the update sequences xs and ys: both orders
are preserved, their steps may overlap arbitrarily. -/
inductive Interleaving : List DocUpdate → List DocUpdate → List DocUpdate → Prop
  | nil : Interleaving [] [] []
  | left {x xs ys zs} : Interleaving xs ys zs → Interleaving (x :: xs) ys (x :: zs)
  | right {y xs ys zs} : Interleaving xs ys zs → Interleaving xs (y :: ys) (y :: zs)

/-! ## Status-only update world (shared/schema.ts second variant,
storage.ts MemStorage lines 20-112, routes.ts PATCH /api/documents/:id/status)

In this variant the documents table has a notNull ipfsHash, a nullable
blockchainRef and a verificationStatus column; the PATCH route validates
the new status against the PENDING / VERIFIED / FAILED enum and calls
MemStorage.updateDocumentStatus, which overwrites only verificationStatus
(and updatedAt). -/

/-- A document row of the second schema variant (shared/schema.ts lines
86-99; timestamps omitted as they carry no constraint used here). -/
structure DocR where
  id : Nat
  userId : Nat
  documentType : String
  documentNumber : Option String
  documentName : String
  ipfsHash : String
  blockchainRef : Option String
  thumbnailIpfsHash : Option String
  verificationStatus : String
  verificationDetails : Option String
deriving DecidableEq, Repr

/-- Insert shape accepted by POST /api/documents with a JSON body
(insertDocumentSchema of the second schema variant: blockchainRef,
documentNumber, thumbnailIpfsHash and verificationDetails optional). -/
structure InsertDocR where
  userId : Nat
  documentType : String
  documentNumber : Option String := none
  documentName : String
  ipfsHash : String
  blockchainRef : Option String := none
  thumbnailIpfsHash : Option String := none
  verificationStatus : String
  verificationDetails : Option String := none

/-- Embedding of MemStorage.createDocument (storage.ts lines 71-93):
missing optional fields default to null. -/
def createDocumentR (id : Nat) (ins : InsertDocR) : DocR :=
  { id := id, userId := ins.userId, documentType := ins.documentType,
    documentNumber := ins.documentNumber, documentName := ins.documentName,
    ipfsHash := ins.ipfsHash, blockchainRef := ins.blockchainRef,
    thumbnailIpfsHash := ins.thumbnailIpfsHash,
    verificationStatus := ins.verificationStatus,
    verificationDetails := ins.verificationDetails }

/-- Embedding of MemStorage.updateDocumentStatus (storage.ts lines 95-107):
spread of the stored document with only verificationStatus (and updatedAt)
replaced. -/
def updateDocumentStatus (d : DocR) (status : String) : DocR :=
  { d with verificationStatus := status }

/-- The zod status enum accepted by PATCH /api/documents/:id/status
(routes.ts lines 204-208). -/
def patchStatusAllowed (s : String) : Bool :=
  s == "PENDING" || s == "VERIFIED" || s == "FAILED"

/-! ## Aggregate statistics (storage.ts, MemStorage.getDocumentStats lines
405-430) -/

/-- Result shape of getDocumentStats. -/
structure DocumentStats where
  verifiedCount : Nat
  pendingFailedCount : Nat
  storageUsed : Nat
deriving DecidableEq, Repr

/-- Embedding of MemStorage.getDocumentStats (storage.ts lines 405-430):
filter the user's documents, count status verified, count status invalid or
pending, estimate storage at five megabytes per document. -/
def getDocumentStats (docs : List Doc) (userId : Nat) : DocumentStats :=
  let userDocuments := docs.filter fun d => d.userId == some userId
  { verifiedCount :=
      (userDocuments.filter fun d => d.status == "verified").length
    pendingFailedCount :=
      (userDocuments.filter fun d =>
        d.status == "invalid" || d.status == "pending").length
    storageUsed := userDocuments.length * 5 }

/-! ## Concrete fixtures used by the theorems -/

/-- A concrete stand-in for the Math.random-driven generateDocumentId
(documentAi.ts lines 238-274): one fixed sample output per call. -/
def gen0 : DocumentType → String := fun _ => "9999 9999 9999"

/-- A concrete current date: October 11, 2025 (month is zero-indexed). -/
def now0 : JsDate := ⟨2025, 9, 11⟩

/-- The concrete scenario A text: a national-id submission containing the
grouped token 1234 5678 9012. -/
def aadharScenarioText : String :=
  "GOVERNMENT OF INDIA Aadhar Number: 1234 5678 9012 Name: John Doe"

/-- An aadhar text carrying a valid identifier and an expiry marker whose
date lies strictly in the past. -/
def expiredAadharText : String :=
  "AADHAR CARD 1234 5678 9012 Valid Till: 01/01/2020"

/-- A plausibly long text in which the aadhar pattern finds no match. -/
def noIdText : String := "HELLO WORLD DOCUMENT TEXT"

/-- The update the verify background block applies when the stored content
extracts to the unreadable two-character text xx (used for the race
schedule): the validator rejects and the handler writes the invalid
update. -/
def invalidAttemptUpdate : DocUpdate :=
  verifyBackgroundUpdate
    (processAndVerifyDocument gen0 now0 (.ok "xx") .aadhar)
    (uploadToIpfs (.ok "QmZ")) (storeOnBlockchain (.ok "0x2"))

/-- The schedule in which both retry updates land while the initial attempt
is still running, and the initial attempt's terminal update lands last. -/
def mixedSchedule : List DocUpdate :=
  retryPendingUpdate ::
    retryBackgroundUpdate "DOC-55555555" "ipfs-mock123" (.ok "0xfeed") ::
      [invalidAttemptUpdate]

/-- A document in status error, as produced by the verify handler's catch
branch (part_014 lines 168-173). -/
def errorDocExample : Doc :=
  { initialPendingDoc 1 .aadhar with
    status := "error", errorDetails := some "Processing error: boom" }

/-- The outcome of the initial verify run on a document whose content
extracts to the unreadable text xx. -/
def invalidRunDoc : Doc :=
  runVerifyEndpoint gen0 now0 .aadhar (.ok "xx") (.ok "QmZ") (.ok "0x2")

/-- A document created through POST /api/documents with a JSON body that
omits the optional blockchainRef. -/
def jsonCreatedDoc : DocR :=
  createDocumentR 1
    { userId := 1, documentType := "AADHAR", documentName := "Aadhar Document",
      ipfsHash := "QmHash123", verificationStatus := "PENDING" }

/-! ## Substring test used to compare failure details against the spec's
wording -/

/-- Whether the first list is an initial segment of the second. -/
def startsWithL : List Char → List Char → Bool
  | [], _ => true
  | _ :: _, [] => false
  | a :: as, b :: bs => a = b && startsWithL as bs

/-- Whether the needle occurs as a contiguous segment of the hay. -/
def containsSub (needle : List Char) : List Char → Bool
  | [] => startsWithL needle []
  | c :: t => startsWithL needle (c :: t) || containsSub needle t

/-- Whether the needle string occurs inside the hay string. -/
def strContainsSub (hay needle : String) : Bool :=
  containsSub needle.data hay.data

/-! # Theorems -/

/-- C1: when the per-type identifier pattern finds no match in a
plausibly long text, validateDocument does not return an invalid result
with a missing-identifier reason; it synthesizes a placeholder identifier
(the generateDocumentId output, abstracted as gen0) and reports the
document valid with an empty reason list (documentAi.ts lines 122-134). -/
theorem validateSynthesizesIdOnNoMatch :
    extractDocumentId noIdText .aadhar = none
    ∧ 10 ≤ noIdText.length
    ∧ validateDocument gen0 now0 noIdText .aadhar
        = { isValid := true, documentId := some "9999 9999 9999", reasons := [] } :=
  ⟨rfl, by decide, rfl⟩

/-- C2: the retry handler does not re-execute the verification pipeline.
On a document whose stored content extracts to the unreadable text xx the
initial pipeline ends invalid, yet an accepted retry on the same document
ends verified with a synthesized DOC- identifier and mock content hash,
without running extraction or validation (part_014 lines 234-264). -/
theorem retryForcesSuccessWithoutPipeline :
    invalidRunDoc.status = "invalid"
    ∧ (runRetry invalidRunDoc "DOC-55555556" "ipfs-mock456" (.ok "0xbeef")).status
        = "verified"
    ∧ (runRetry invalidRunDoc "DOC-55555556" "ipfs-mock456" (.ok "0xbeef")).documentId
        = "DOC-55555556"
    ∧ (runRetry invalidRunDoc "DOC-55555556" "ipfs-mock456" (.ok "0xbeef")).ipfsHash
        = some "ipfs-mock456"
    ∧ (runRetry invalidRunDoc "DOC-55555556" "ipfs-mock456" (.ok "0xbeef")).blockchainTxId
        = some "0xbeef" :=
  ⟨rfl, rfl, rfl, rfl, rfl⟩

/-- C3: an extraction fault is conflated with a validation failure: when
the extraction step throws, processAndVerifyDocument swallows the
exception into an invalid result (documentAi.ts lines 53-59) and the
verify handler ends the document in status invalid, not error; store and
anchor faults do end in status error (part_014 lines 156-176). -/
theorem extractionFaultEndsInvalid :
    (runVerifyEndpoint gen0 now0 .aadhar (.error "ENOENT: uploads img missing")
        (.ok "QmZ") (.ok "0x2")).status = "invalid"
    ∧ (runVerifyEndpoint gen0 now0 .aadhar (.error "ENOENT: uploads img missing")
        (.ok "QmZ") (.ok "0x2")).errorDetails
        = some "Error processing document: ENOENT: uploads img missing"
    ∧ (runVerifyEndpoint gen0 now0 .aadhar (.ok aadharScenarioText)
        (.error "store down") (.ok "0x2")).status = "error"
    ∧ (runVerifyEndpoint gen0 now0 .aadhar (.ok aadharScenarioText)
        (.ok "QmZ") (.error "ledger down")).status = "error" :=
  ⟨rfl, rfl, rfl, rfl⟩

/-- C4 counterexample: submitting the two-character text xx ends in status
invalid, but the stored errorDetails is the camera-quality message and does
not contain the substring unreadable content. -/
theorem shortTextDetailLacksUnreadable :
    invalidRunDoc.status = "invalid"
    ∧ strContainsSub (invalidRunDoc.errorDetails.getD "") "unreadable content"
        = false :=
  ⟨rfl, rfl⟩

/-- C5: the expiry check is inert.  On a text whose expiry marker parses to
a date strictly before now (scenario date January 1, 2020 against October
11, 2025) the marker is found and evaluates as expired, yet
validateDocument appends no document-expired reason and reports the
document valid (documentAi.ts lines 137-153, comment: allowing
verification for testing). -/
theorem expiredDocumentPassesValidation :
    (findExpiry expiredAadharText.data).isSome = true
    ∧ documentExpired now0 expiredAadharText = true
    ∧ validateDocument gen0 now0 expiredAadharText .aadhar
        = { isValid := true, documentId := some "1234 5678 9012", reasons := [] } :=
  ⟨rfl, rfl, rfl⟩

/-- C6 counterexample: the status-only PATCH operation accepts the value
VERIFIED and, applied to a reachable document created with no
blockchainRef, produces a document in VERIFIED status whose anchor
reference is still null (routes.ts lines 194-227, storage.ts lines
95-107). -/
theorem statusPatchProducesVerifiedWithoutAnchor :
    patchStatusAllowed "VERIFIED" = true
    ∧ jsonCreatedDoc.verificationStatus = "PENDING"
    ∧ jsonCreatedDoc.blockchainRef = none
    ∧ (updateDocumentStatus jsonCreatedDoc "VERIFIED").verificationStatus
        = "VERIFIED"
    ∧ (updateDocumentStatus jsonCreatedDoc "VERIFIED").blockchainRef = none :=
  ⟨rfl, rfl, rfl, rfl, rfl⟩

/-- C8: concrete scenario A.  On the national-id text containing the
grouped token 1234 5678 9012, validation succeeds with exactly that first
pattern match as canonical identifier, and with store and anchor
succeeding the document ends verified carrying both references. -/
theorem aadharScenarioReachesVerified (genId : DocumentType → String)
    (now : JsDate) (cid tx : String) :
    validateDocument genId now aadharScenarioText .aadhar
        = { isValid := true, documentId := some "1234 5678 9012", reasons := [] }
    ∧ (runVerifyEndpoint genId now .aadhar (.ok aadharScenarioText)
        (.ok cid) (.ok tx)).status = "verified"
    ∧ (runVerifyEndpoint genId now .aadhar (.ok aadharScenarioText)
        (.ok cid) (.ok tx)).documentId = "1234 5678 9012"
    ∧ (runVerifyEndpoint genId now .aadhar (.ok aadharScenarioText)
        (.ok cid) (.ok tx)).ipfsHash = some cid
    ∧ (runVerifyEndpoint genId now .aadhar (.ok aadharScenarioText)
        (.ok cid) (.ok tx)).blockchainTxId = some tx :=
  ⟨rfl, rfl, rfl, rfl, rfl⟩

/-- C9: nothing serializes a retry against a still-running initial
attempt: the retry is accepted while the document is pending, and under
the schedule in which both retry updates land before the initial attempt's
terminal update, the final record mixes the two attempts, holding the
initial attempt's invalid status and failure detail together with the
retry attempt's content address and anchor reference (part_014 lines
108-127 and 209-282). -/
theorem retryRaceProducesMixedRecord :
    retryAccepted (some (initialPendingDoc 1 .aadhar)) = true
    ∧ Interleaving [invalidAttemptUpdate]
        (retryUpdates "DOC-55555555" "ipfs-mock123" (.ok "0xfeed")) mixedSchedule
    ∧ (mixedSchedule.foldl applyUpdate (initialPendingDoc 1 .aadhar)).status
        = "invalid"
    ∧ (mixedSchedule.foldl applyUpdate (initialPendingDoc 1 .aadhar)).errorDetails
        = some shortTextReason
    ∧ (mixedSchedule.foldl applyUpdate (initialPendingDoc 1 .aadhar)).ipfsHash
        = some "ipfs-mock123"
    ∧ (mixedSchedule.foldl applyUpdate (initialPendingDoc 1 .aadhar)).blockchainTxId
        = some "0xfeed" :=
  ⟨rfl, .right (.right (.left .nil)), rfl, rfl, rfl, rfl⟩

/-- C4 amended: for every document type and every extracted text shorter
than the ten-character plausibility threshold, the run ends with status
invalid and errorDetails equal to the camera-quality message (documentAi.ts
lines 116-120, part_014 lines 156-162). -/
theorem shortTextEndsInvalidWithCameraMessage (genId : DocumentType → String)
    (now : JsDate) (documentType : DocumentType)
    (storeTransport anchorTransport : Except String String) (text : String)
    (h : text.length < 10) :
    (runVerifyEndpoint genId now documentType (.ok text) storeTransport
        anchorTransport).status = "invalid"
    ∧ (runVerifyEndpoint genId now documentType (.ok text) storeTransport
        anchorTransport).errorDetails = some shortTextReason := by
  simp only [runVerifyEndpoint, processAndVerifyDocument, validateDocument,
    if_pos h]
  exact ⟨rfl, rfl⟩

/-- C4 witness: the amended statement instantiated at the two-character
text xx. -/
theorem shortTextEndsInvalidWithCameraMessage_witness :
    ("xx" : String).length < 10
    ∧ ((runVerifyEndpoint gen0 now0 .pan (.ok "xx") (.ok "QmZ") (.ok "0x2")).status
          = "invalid"
       ∧ (runVerifyEndpoint gen0 now0 .pan (.ok "xx") (.ok "QmZ")
            (.ok "0x2")).errorDetails = some shortTextReason) :=
  ⟨by decide,
    shortTextEndsInvalidWithCameraMessage gen0 now0 .pan (.ok "QmZ") (.ok "0x2")
      "xx" (by decide)⟩

/-- C6 amended: a document that reaches verified through the verification
pipeline always carries both a content address and an anchor reference;
the status-only update operation, however, rewrites only the status field,
leaving ipfsHash and blockchainRef untouched, so it can move a document
with a null anchor reference into VERIFIED status. -/
theorem pipelineVerifiedHasRefsPatchOnlyStatus (genId : DocumentType → String)
    (now : JsDate) (documentType : DocumentType)
    (extraction storeTransport anchorTransport : Except String String)
    (d : DocR) (s : String)
    (h : (runVerifyEndpoint genId now documentType extraction storeTransport
        anchorTransport).status = "verified") :
    ((runVerifyEndpoint genId now documentType extraction storeTransport
        anchorTransport).ipfsHash.isSome = true
      ∧ (runVerifyEndpoint genId now documentType extraction storeTransport
          anchorTransport).blockchainTxId.isSome = true)
    ∧ (updateDocumentStatus d s).ipfsHash = d.ipfsHash
    ∧ (updateDocumentStatus d s).blockchainRef = d.blockchainRef := by
  refine ⟨?_, rfl, rfl⟩
  by_cases hb : (processAndVerifyDocument genId now extraction documentType).isValid
  · cases hs : uploadToIpfs storeTransport with
    | error e =>
      simp [runVerifyEndpoint, verifyBackgroundUpdate, applyUpdate,
        initialPendingDoc, hb, hs] at h
    | ok cid =>
      cases ha : storeOnBlockchain anchorTransport with
      | error e =>
        simp [runVerifyEndpoint, verifyBackgroundUpdate, applyUpdate,
          initialPendingDoc, hb, hs, ha] at h
      | ok tx =>
        simp [runVerifyEndpoint, verifyBackgroundUpdate, applyUpdate,
          initialPendingDoc, hb, hs, ha]
  · simp [runVerifyEndpoint, verifyBackgroundUpdate, applyUpdate,
      initialPendingDoc, hb] at h

/-- C6 amended witness: instantiated at the scenario A run and a concrete
stored document. -/
theorem pipelineVerifiedHasRefsPatchOnlyStatus_witness :
    (runVerifyEndpoint gen0 now0 .aadhar (.ok aadharScenarioText) (.ok "Qm1")
        (.ok "0x1")).status = "verified"
    ∧ (((runVerifyEndpoint gen0 now0 .aadhar (.ok aadharScenarioText) (.ok "Qm1")
          (.ok "0x1")).ipfsHash.isSome = true
        ∧ (runVerifyEndpoint gen0 now0 .aadhar (.ok aadharScenarioText) (.ok "Qm1")
            (.ok "0x1")).blockchainTxId.isSome = true)
       ∧ (updateDocumentStatus jsonCreatedDoc "FAILED").ipfsHash
          = jsonCreatedDoc.ipfsHash
       ∧ (updateDocumentStatus jsonCreatedDoc "FAILED").blockchainRef
          = jsonCreatedDoc.blockchainRef) :=
  ⟨rfl,
    pipelineVerifiedHasRefsPatchOnlyStatus gen0 now0 .aadhar
      (.ok aadharScenarioText) (.ok "Qm1") (.ok "0x1") jsonCreatedDoc "FAILED"
      rfl⟩

/-- C7: when validation succeeds and the content store adapter fails, the
document ends in status error with a failure detail naming the IPFS upload
failure, and both the content address and the anchor reference stay null,
unchanged from the pending record (part_014 lines 163-176, ipfs.ts lines
14-48). -/
theorem storeFailureEndsErrorWithRefsUnset (genId : DocumentType → String)
    (now : JsDate) (documentType : DocumentType) (text e : String)
    (anchorTransport : Except String String)
    (hvalid : (validateDocument genId now text documentType).isValid = true) :
    (runVerifyEndpoint genId now documentType (.ok text) (.error e)
        anchorTransport).status = "error"
    ∧ (runVerifyEndpoint genId now documentType (.ok text) (.error e)
        anchorTransport).errorDetails
        = some ("Processing error: "
            ++ ("Failed to upload document to IPFS: " ++ e))
    ∧ (runVerifyEndpoint genId now documentType (.ok text) (.error e)
        anchorTransport).ipfsHash = none
    ∧ (runVerifyEndpoint genId now documentType (.ok text) (.error e)
        anchorTransport).blockchainTxId = none := by
  simp [runVerifyEndpoint, processAndVerifyDocument, hvalid, uploadToIpfs,
    verifyBackgroundUpdate, applyUpdate, initialPendingDoc]

/-- C7 witness: instantiated at the scenario A text with a concrete
transport failure. -/
theorem storeFailureEndsErrorWithRefsUnset_witness :
    (validateDocument gen0 now0 aadharScenarioText .aadhar).isValid = true
    ∧ ((runVerifyEndpoint gen0 now0 .aadhar (.ok aadharScenarioText)
          (.error "ECONNREFUSED") (.ok "0x1")).status = "error"
       ∧ (runVerifyEndpoint gen0 now0 .aadhar (.ok aadharScenarioText)
            (.error "ECONNREFUSED") (.ok "0x1")).errorDetails
          = some ("Processing error: "
              ++ ("Failed to upload document to IPFS: " ++ "ECONNREFUSED"))
       ∧ (runVerifyEndpoint gen0 now0 .aadhar (.ok aadharScenarioText)
            (.error "ECONNREFUSED") (.ok "0x1")).ipfsHash = none
       ∧ (runVerifyEndpoint gen0 now0 .aadhar (.ok aadharScenarioText)
            (.error "ECONNREFUSED") (.ok "0x1")).blockchainTxId = none) :=
  ⟨rfl,
    storeFailureEndsErrorWithRefsUnset gen0 now0 .aadhar aadharScenarioText
      "ECONNREFUSED" (.ok "0x1") rfl⟩

/-- Helper for C10: over any list of documents whose statuses all lie in
the four statuses the handlers write, the verified bucket, the
invalid-or-pending bucket and the error bucket partition the list. -/
theorem filterStatusPartition (L : List Doc)
    (hw : ∀ d ∈ L, d.status = "verified" ∨ d.status = "pending"
      ∨ d.status = "invalid" ∨ d.status = "error") :
    ((L.filter fun d => d.status == "verified").length
      + (L.filter fun d => d.status == "invalid" || d.status == "pending").length)
      + (L.filter fun d => d.status == "error").length = L.length := by
  induction L with
  | nil => simp
  | cons d t ih =>
    have hd := hw d (List.mem_cons_self d t)
    have iht := ih fun x hx => hw x (List.mem_cons_of_mem d hx)
    rcases hd with h | h | h | h <;>
      simp [List.filter_cons, h] <;> omega

/-- C10: getDocumentStats counts exactly the user's verified documents in
verifiedCount and exactly the pending-or-invalid ones in
pendingFailedCount; error documents fall in neither bucket, the three
buckets partition the user's documents, and on a state holding one error
document the two counts sum to strictly less than the user's total
(storage.ts lines 405-430, part_014 lines 168-176). -/
theorem statsCountsPartitionWithErrorGap (docs : List Doc) (u : Nat)
    (hw : ∀ d ∈ docs, d.status = "verified" ∨ d.status = "pending"
      ∨ d.status = "invalid" ∨ d.status = "error") :
    (getDocumentStats docs u).verifiedCount
        = ((docs.filter fun d => d.userId == some u).filter
            fun d => d.status == "verified").length
    ∧ (getDocumentStats docs u).pendingFailedCount
        = ((docs.filter fun d => d.userId == some u).filter
            fun d => d.status == "pending" || d.status == "invalid").length
    ∧ ((getDocumentStats docs u).verifiedCount
        + (getDocumentStats docs u).pendingFailedCount)
        + ((docs.filter fun d => d.userId == some u).filter
            fun d => d.status == "error").length
      = (docs.filter fun d => d.userId == some u).length
    ∧ (getDocumentStats [errorDocExample] 1).verifiedCount
        + (getDocumentStats [errorDocExample] 1).pendingFailedCount
      < ([errorDocExample].filter fun d => d.userId == some 1).length := by
  refine ⟨rfl, ?_, ?_, by decide⟩
  · exact congrArg List.length
      (List.filter_congr fun x _ => Bool.or_comm (x.status == "invalid")
        (x.status == "pending"))
  · exact filterStatusPartition (docs.filter fun d => d.userId == some u)
      fun d hd => hw d (List.mem_of_mem_filter hd)

/-- C10 witness: instantiated at a one-document state holding an error
document. -/
theorem statsCountsPartitionWithErrorGap_witness :
    (∀ d ∈ [errorDocExample], d.status = "verified" ∨ d.status = "pending"
      ∨ d.status = "invalid" ∨ d.status = "error")
    ∧ ((getDocumentStats [errorDocExample] 1).verifiedCount
          = (([errorDocExample].filter fun d => d.userId == some 1).filter
              fun d => d.status == "verified").length
       ∧ (getDocumentStats [errorDocExample] 1).pendingFailedCount
          = (([errorDocExample].filter fun d => d.userId == some 1).filter
              fun d => d.status == "pending" || d.status == "invalid").length
       ∧ ((getDocumentStats [errorDocExample] 1).verifiedCount
          + (getDocumentStats [errorDocExample] 1).pendingFailedCount)
          + (([errorDocExample].filter fun d => d.userId == some 1).filter
              fun d => d.status == "error").length
        = ([errorDocExample].filter fun d => d.userId == some 1).length
       ∧ (getDocumentStats [errorDocExample] 1).verifiedCount
          + (getDocumentStats [errorDocExample] 1).pendingFailedCount
        < ([errorDocExample].filter fun d => d.userId == some 1).length) :=
  ⟨by decide, statsCountsPartitionWithErrorGap [errorDocExample] 1 (by decide)⟩

end BlockchainDocVerifier
